import Mathlib

/-!
Verification development for the shadfocus active-timer core.

The definitions below are a shallow embedding of the timer logic in
`src/services/db.ts` (startTimer, pauseTimer, resumeTimer, stopTimer) and
`src/App.tsx` (calculateTime / display effect, saveSession, the pomodoro
completion-check effect, handleFinishEarly, changeDuration).

Modelling conventions:
* Epoch-millisecond timestamps and second counts are rationals (`ℚ`);
  JavaScript division by 1000 is exact rational division and `Math.floor`
  is `Int.floor`.
* A possibly-absent numeric field (`startTime`, `pausedAt`,
  `pausedDuration`, `initialDuration` may be missing on a fetched
  document) is `Option ℚ`.  JavaScript `x || d` on such a field is
  `jsOrQ` (absent or zero falls back), `x ?? d` is `Option.getD`,
  and a bare truthiness test `if (x)` is `jsTruthyNum`.
* Arithmetic on an absent field (`now - undefined`) yields NaN in
  JavaScript; every NaN comparison is false.  Where the source does such
  arithmetic (saveSession's fallback duration, handleFinishEarly) the
  embedding matches on the `Option` and takes the branch the NaN would
  reach; a duration that would be NaN is represented as `none`.
* `crypto.randomUUID()` is modelled by a fresh-id counter in the store:
  each call yields a new, distinct id.
* The Firestore document store is `Store`; the React component's state
  snapshot (`activeTimer`, `timeLeft`, settings, projects, notes, tags)
  is passed separately as the observed values, since a deletion issued to
  the store only reaches the snapshot at the next subscription update.
-/

namespace ShadFocus

/-- JavaScript `x || d` for a possibly-absent numeric field: an absent or
zero (falsy) value falls back to `d`. -/
def jsOrQ (x : Option ℚ) (d : ℚ) : ℚ :=
  match x with
  | none => d
  | some v => if v = 0 then d else v

/-- JavaScript `v || d` for a plain number already in hand. -/
def jsOrQv (v d : ℚ) : ℚ :=
  if v = 0 then d else v

/-- JavaScript truthiness test `if (x)` on a possibly-absent numeric
field: false when the field is absent or zero. -/
def jsTruthyNum (x : Option ℚ) : Bool :=
  match x with
  | none => false
  | some v => decide (v ≠ 0)

/-- Timer mode (`'pomodoro' | 'stopwatch'` in `src/types.ts`). -/
inductive Mode
  | pomodoro
  | stopwatch
deriving DecidableEq

/-- Project record (`src/types.ts`); the color enum is kept as a string. -/
structure Project where
  id : String
  name : String
  color : String
deriving DecidableEq

/-- The `ActiveTimer` document (`src/types.ts`).  Numeric fields that can
be absent on a fetched document are `Option ℚ`. -/
structure ActiveTimer where
  mode : Mode
  isActive : Bool
  startTime : Option ℚ
  pausedAt : Option ℚ
  pausedDuration : Option ℚ
  initialDuration : Option ℚ
  projectId : String
  projectName : String
  notes : String
  tags : List String
deriving DecidableEq

/-- A materialized `Session` record (`src/types.ts`).  `id` is the value
of the fresh-id counter at creation; `durationSeconds` is `none` when the
JavaScript computation would have produced NaN. -/
structure Session where
  id : Nat
  projectId : String
  projectName : String
  startTime : Option ℚ
  endTime : ℚ
  durationSeconds : Option ℚ
  notes : String
  tags : List String
  color : String
deriving DecidableEq

/-- The per-user Firestore document store: the sessions collection, the
single `activeTimers/current` document, and the fresh-id source that
models `crypto.randomUUID()`. -/
structure Store where
  sessions : List Session
  timerDoc : Option ActiveTimer
  nextId : Nat
deriving DecidableEq

/-- First entry of `DEFAULT_PROJECTS` (`src/constants.ts`). -/
def defaultProject0 : Project :=
  { id := "default-1", name := "Deep Work", color := "purple" }

/-- `DEFAULT_PROJECTS` from `src/constants.ts`. -/
def DEFAULT_PROJECTS : List Project :=
  [defaultProject0,
   { id := "default-2", name := "Study", color := "blue" },
   { id := "default-3", name := "Creative", color := "yellow" }]

/-- The React component state that the handlers read besides the timer:
the settings duration (minutes), project list, selected project, and the
session-input fields. -/
structure UiCtx where
  settingsTimerDuration : ℚ
  projects : List Project
  activeProject : Option Project
  currentNotes : String
  currentTags : List String

/-- `startTimer` from `src/services/db.ts` (lines 130-156): builds the
document that is written to `activeTimers/current`.  Note that
`startTime` is set to `Date.now()` regardless of the `startTime` the
caller passed in `timerData`, `pausedDuration` uses `?? 0` (nullish, not
falsy), and `initialDuration` / `pausedAt` are copied only when defined. -/
def startTimer (now : ℚ) (timerData : ActiveTimer) : ActiveTimer :=
  { mode := timerData.mode
    isActive := timerData.isActive
    startTime := some now
    pausedAt := timerData.pausedAt
    pausedDuration := some (timerData.pausedDuration.getD 0)
    initialDuration := timerData.initialDuration
    projectId := timerData.projectId
    projectName := timerData.projectName
    notes := timerData.notes
    tags := timerData.tags }

/-- `pauseTimer` from `src/services/db.ts` (lines 158-180): no-op when no
document exists or it is not active; otherwise sets `isActive := false`
and `pausedAt := now`, leaving every other field (in particular
`pausedDuration`) unchanged. -/
def pauseTimer (now : ℚ) (doc : Option ActiveTimer) : Option ActiveTimer :=
  match doc with
  | none => none
  | some timer =>
    if timer.isActive = false then some timer
    else some { timer with isActive := false, pausedAt := some now }

/-- `resumeTimer` from `src/services/db.ts` (lines 182-208): when
`pausedAt` is truthy, adds `(now - pausedAt) / 1000` to
`pausedDuration || 0` and clears `pausedAt`; otherwise just resumes. -/
def resumeTimer (now : ℚ) (doc : Option ActiveTimer) : Option ActiveTimer :=
  match doc with
  | none => none
  | some timer =>
    if jsTruthyNum timer.pausedAt then
      some { timer with
              isActive := true
              pausedAt := none
              pausedDuration :=
                some (jsOrQ timer.pausedDuration 0 +
                      (now - timer.pausedAt.getD 0) / 1000) }
    else
      some { timer with isActive := true, pausedAt := none }

/-- `stopTimer` from `src/services/db.ts` (lines 210-213): deletes the
`activeTimers/current` document. -/
def stopTimer (_doc : Option ActiveTimer) : Option ActiveTimer :=
  none

/-- The display state published to the UI (`displayTime` in
`src/App.tsx`, line 745): the pomodoro seconds left and the stopwatch
seconds elapsed. -/
structure DisplayTime where
  timeLeft : ℚ
  stopwatchSeconds : ℚ
deriving DecidableEq

/-- Default display used when no ActiveTimer exists (`src/App.tsx`,
lines 861-867): the full configured duration for pomodoro and zero for
the stopwatch. -/
def defaultDisplay (settingsTimerDuration : ℚ) : DisplayTime :=
  { timeLeft := jsOrQv settingsTimerDuration 25 * 60, stopwatchSeconds := 0 }

/-- `calculateTime` from `src/App.tsx` (lines 872-931), as a function of
the fetched timer, the settings duration, the clock, and the previous
display value.  When `startTime` is falsy (`if (!activeTimer.startTime)`)
the source returns early without calling `setDisplayTime`, so the
previous display is kept. -/
def calculateTime (activeTimer : ActiveTimer) (settingsTimerDuration : ℚ)
    (now : ℚ) (prev : DisplayTime) : DisplayTime :=
  if jsTruthyNum activeTimer.startTime = false then prev
  else
    let s0 := activeTimer.startTime.getD 0
    let totalElapsed := (now - s0) / 1000
    let pausedDuration := jsOrQ activeTimer.pausedDuration 0
    let elapsedSeconds :=
      if activeTimer.isActive then totalElapsed - pausedDuration
      else (jsOrQ activeTimer.pausedAt now - s0) / 1000 - pausedDuration
    match activeTimer.mode with
    | Mode.pomodoro =>
      let initialDuration :=
        jsOrQ activeTimer.initialDuration (jsOrQv settingsTimerDuration 25 * 60)
      let remaining := max 0 (initialDuration - elapsedSeconds)
      { timeLeft := (⌊remaining⌋ : ℚ), stopwatchSeconds := 0 }
    | Mode.stopwatch =>
      { timeLeft := 0, stopwatchSeconds := (⌊elapsedSeconds⌋ : ℚ) }

/-- The whole display effect of `src/App.tsx` (lines 860-931): defaults
when no timer exists, otherwise `calculateTime`. -/
def displayProjector (activeTimer : Option ActiveTimer)
    (settingsTimerDuration : ℚ) (now : ℚ) (prev : DisplayTime) : DisplayTime :=
  match activeTimer with
  | none => defaultDisplay settingsTimerDuration
  | some t => calculateTime t settingsTimerDuration now prev

/-- Fallback duration computed by `saveSession` when no explicit duration
is passed (`src/App.tsx`, lines 957-972).  `none` models the NaN the
source produces when `activeTimer.startTime` is absent. -/
def saveSessionComputedDuration (activeTimer : ActiveTimer)
    (settingsTimerDuration : ℚ) (now : ℚ) : Option ℚ :=
  match activeTimer.startTime with
  | none => none
  | some s0 =>
    let elapsedSeconds := (now - s0) / 1000 - jsOrQ activeTimer.pausedDuration 0
    match activeTimer.mode with
    | Mode.pomodoro =>
      let initialDuration :=
        jsOrQ activeTimer.initialDuration (settingsTimerDuration * 60)
      let duration := max 0 (initialDuration - elapsedSeconds)
      some (jsOrQ activeTimer.initialDuration (settingsTimerDuration * 60) - duration)
    | Mode.stopwatch =>
      some (⌊elapsedSeconds⌋ : ℚ)

/-- The `newSession` record built by `saveSession` (`src/App.tsx`,
lines 974-987), with the fresh-id counter standing in for
`crypto.randomUUID()`.  `projectToSave` mirrors
`projects.find(...) || activeProject || (projects[0] or DEFAULT_PROJECTS[0])`
and `notes` mirrors `activeTimer.notes || currentNotes` (an empty string
is falsy); `activeTimer.tags` is an array, hence always truthy. -/
def saveSessionNewSession (activeTimer : ActiveTimer) (duration : Option ℚ)
    (ctx : UiCtx) (now : ℚ) (freshId : Nat) : Session :=
  let projectToSave :=
    (((ctx.projects.find? fun p => p.id = activeTimer.projectId).orElse
        fun _ => ctx.activeProject).getD
      (ctx.projects.headD defaultProject0))
  { id := freshId
    projectId := activeTimer.projectId
    projectName := activeTimer.projectName
    startTime := activeTimer.startTime
    endTime := now
    durationSeconds := duration
    notes := if activeTimer.notes = "" then ctx.currentNotes else activeTimer.notes
    tags := activeTimer.tags
    color := projectToSave.color }

/-- `saveSession` from `src/App.tsx` (lines 954-994), acting on the
document store.  `observedTimer` is the React `activeTimer` state the
callback closes over (a snapshot, possibly stale with respect to the
store); the guard `if (!user || !activeTimer) return` is the `none`
case.  The body issues `db.addSession` and then `db.stopTimer`. -/
def saveSession (observedTimer : Option ActiveTimer)
    (actualDurationSeconds : Option ℚ) (ctx : UiCtx) (now : ℚ)
    (store : Store) : Store :=
  match observedTimer with
  | none => store
  | some activeTimer =>
    let duration : Option ℚ :=
      match actualDurationSeconds with
      | some d => some d
      | none => saveSessionComputedDuration activeTimer ctx.settingsTimerDuration now
    let newSession := saveSessionNewSession activeTimer duration ctx now store.nextId
    { sessions := store.sessions ++ [newSession]
      timerDoc := none
      nextId := store.nextId + 1 }

/-- The pomodoro completion-check effect body from `src/App.tsx`
(lines 997-1009): when the observed timer is a running pomodoro and the
observed `timeLeft` is 0, it plays the notification sound and calls
`saveSession` with the full `initialDuration`.  The guard reads only the
React snapshot (`observedTimer`, `timeLeft`), not the store. -/
def completionCheck (observedTimer : Option ActiveTimer) (timeLeft : ℚ)
    (ctx : UiCtx) (now : ℚ) (store : Store) : Store :=
  match observedTimer with
  | none => store
  | some t =>
    if t.mode = Mode.pomodoro ∧ t.isActive = true ∧ timeLeft = 0 then
      let initialDuration :=
        jsOrQ t.initialDuration (jsOrQv ctx.settingsTimerDuration 25 * 60)
      saveSession observedTimer (some initialDuration) ctx now store
    else store

/-- The duration computed by `handleFinishEarly` (`src/App.tsx`,
lines 1014-1025).  `none` models the NaN produced when
`activeTimer.startTime` is absent. -/
def finishEarlyDuration (activeTimer : ActiveTimer)
    (settingsTimerDuration : ℚ) (now : ℚ) : Option ℚ :=
  match activeTimer.startTime with
  | none => none
  | some s0 =>
    let elapsedSeconds := (now - s0) / 1000 - jsOrQ activeTimer.pausedDuration 0
    match activeTimer.mode with
    | Mode.pomodoro =>
      let initialDuration :=
        jsOrQ activeTimer.initialDuration (settingsTimerDuration * 60)
      let remaining := max 0 (initialDuration - elapsedSeconds)
      some (initialDuration - remaining)
    | Mode.stopwatch =>
      some (⌊elapsedSeconds⌋ : ℚ)

/-- `handleFinishEarly` from `src/App.tsx` (lines 1011-1034): with a
computed duration above 1 second it calls `saveSession(duration)`,
otherwise it just deletes the timer (`db.stopTimer`).  A NaN duration
(absent `startTime`, the `none` branch) fails the JavaScript comparison
`duration > 1` and therefore also reaches the cancel branch. -/
def handleFinishEarly (observedTimer : Option ActiveTimer) (ctx : UiCtx)
    (now : ℚ) (store : Store) : Store :=
  match observedTimer with
  | none => store
  | some activeTimer =>
    match finishEarlyDuration activeTimer ctx.settingsTimerDuration now with
    | some duration =>
      if duration > 1 then
        saveSession observedTimer (some duration) ctx now store
      else { store with timerDoc := none }
    | none => { store with timerDoc := none }

/-- `changeDuration` from `src/App.tsx` (lines 1111-1137): clamps the new
settings duration to [1, 180] minutes, and when the observed timer is an
active pomodoro, rebuilds the timer document (copying `startTime`,
`pausedDuration || 0`, the metadata, `pausedAt` only when truthy, and the
new `initialDuration`) and writes it through `db.startTimer`.  Returns
the new settings duration and the new timer document. -/
def changeDuration (change : ℚ) (settingsTimerDuration : ℚ)
    (observedTimer : Option ActiveTimer) (now : ℚ) :
    ℚ × Option ActiveTimer :=
  let newDuration := max 1 (min 180 (settingsTimerDuration + change))
  match observedTimer with
  | some t =>
    if t.mode = Mode.pomodoro ∧ t.isActive = true then
      let timerData : ActiveTimer :=
        { mode := t.mode
          isActive := t.isActive
          startTime := t.startTime
          pausedAt := if jsTruthyNum t.pausedAt then t.pausedAt else none
          pausedDuration := some (jsOrQ t.pausedDuration 0)
          initialDuration := some (newDuration * 60)
          projectId := t.projectId
          projectName := t.projectName
          notes := t.notes
          tags := t.tags }
      (newDuration, some (startTimer now timerData))
    else (newDuration, observedTimer)
  | none => (newDuration, observedTimer)

/-- The start branch of `toggleTimer` (`src/App.tsx`, lines 1080-1101):
builds the fresh timer data (with `initialDuration` only for pomodoro)
and writes it through `db.startTimer`. -/
def toggleTimerStart (selectedMode : Mode) (ctx : UiCtx)
    (projectToUse : Project) (now : ℚ) : ActiveTimer :=
  startTimer now
    { mode := selectedMode
      isActive := true
      startTime := some now
      pausedAt := none
      pausedDuration := some 0
      initialDuration :=
        if selectedMode = Mode.pomodoro
        then some (ctx.settingsTimerDuration * 60) else none
      projectId := projectToUse.id
      projectName := projectToUse.name
      notes := ctx.currentNotes
      tags := ctx.currentTags }

/-- A pause or resume request against the timer document, tagged with the
clock value at which it runs. -/
inductive TimerOp
  | pause (now : ℚ)
  | resume (now : ℚ)
deriving DecidableEq

/-- Clock value of a timer operation. -/
def TimerOp.time : TimerOp → ℚ
  | TimerOp.pause n => n
  | TimerOp.resume n => n

/-- Apply one pause/resume request to the timer document. -/
def applyTimerOp : TimerOp → Option ActiveTimer → Option ActiveTimer
  | TimerOp.pause n, d => pauseTimer n d
  | TimerOp.resume n, d => resumeTimer n d

/-- Run a sequence of pause/resume requests left to right. -/
def runTimerOps : List TimerOp → Option ActiveTimer → Option ActiveTimer
  | [], d => d
  | op :: rest, d => runTimerOps rest (applyTimerOp op d)

/-- The `pausedDuration || 0` value of the timer document (0 when the
document is absent). -/
def pdVal : Option ActiveTimer → ℚ
  | none => 0
  | some t => jsOrQ t.pausedDuration 0

/-- The clock values of an operation sequence are non-decreasing and
start no earlier than `c`. -/
def chronoFrom : ℚ → List TimerOp → Bool
  | _, [] => true
  | c, op :: rest => decide (c ≤ op.time) && chronoFrom op.time rest

/-- The document's `pausedAt` (when present) is at most `c`. -/
def pausedAtLe (doc : Option ActiveTimer) (c : ℚ) : Bool :=
  match doc with
  | none => true
  | some t =>
    match t.pausedAt with
    | none => true
    | some p => decide (p ≤ c)

/-- One gateway write issued by `saveSession` (`src/App.tsx`,
lines 989-993). -/
inductive GatewayCall
  | addSession (s : Session)
  | stopTimer
deriving DecidableEq

/-- The sequence of Persistence Gateway calls `saveSession` issues, in
program order (`src/App.tsx`, lines 989-993): first `db.addSession` with
the new session, then `db.stopTimer`. -/
def saveSessionGatewayCalls (observedTimer : Option ActiveTimer)
    (actualDurationSeconds : Option ℚ) (ctx : UiCtx) (now : ℚ)
    (freshId : Nat) : List GatewayCall :=
  match observedTimer with
  | none => []
  | some activeTimer =>
    let duration : Option ℚ :=
      match actualDurationSeconds with
      | some d => some d
      | none => saveSessionComputedDuration activeTimer ctx.settingsTimerDuration now
    [GatewayCall.addSession (saveSessionNewSession activeTimer duration ctx now freshId),
     GatewayCall.stopTimer]

/-- Whether each gateway call in `saveSession` is awaited before the next
statement runs.  In the source both `db.addSession(user.uid, newSession)`
(line 990) and `db.stopTimer(user.uid)` (line 993) are bare calls inside
a non-async callback: neither promise is awaited. -/
def saveSessionAwaited : List Bool :=
  [false, false]

/-- An event in the asynchronous life of the issued gateway calls:
call `k` is handed to the gateway (`issue k`) and later becomes durable
(`complete k`). -/
inductive SaveEv
  | issue (k : Nat)
  | complete (k : Nat)
deriving DecidableEq, BEq

/-- A possible interleaving of the issuance and completion of `n`
gateway calls: every call is issued once, in program order; every call
completes exactly once, after it is issued; and a call that the program
awaits completes before the next call is issued.  Calls that are not
awaited have no constraint between their completion and later events. -/
def validAsyncTrace (awaited : List Bool) (tr : List SaveEv) : Prop :=
  let n := awaited.length
  tr.length = 2 * n ∧
  (∀ k < n, tr.count (SaveEv.issue k) = 1 ∧ tr.count (SaveEv.complete k) = 1 ∧
    tr.indexOf (SaveEv.issue k) < tr.indexOf (SaveEv.complete k)) ∧
  (∀ k < n - 1, tr.indexOf (SaveEv.issue k) < tr.indexOf (SaveEv.issue (k + 1))) ∧
  (∀ k < n - 1, awaited.getD k false = true →
    tr.indexOf (SaveEv.complete k) < tr.indexOf (SaveEv.issue (k + 1)))

instance (awaited : List Bool) (tr : List SaveEv) :
    Decidable (validAsyncTrace awaited tr) := by
  unfold validAsyncTrace
  exact instDecidableAnd

/-- Elapsed-seconds formula exactly as claim C4 states it:
`(now - startTime)/1000 - pausedDuration` when active,
`((pausedAt ?? now) - startTime)/1000 - pausedDuration` when paused, an
absent `pausedDuration` treated as 0. -/
def claimElapsedSeconds (t : ActiveTimer) (now : ℚ) : ℚ :=
  let s0 := t.startTime.getD 0
  let pd := t.pausedDuration.getD 0
  if t.isActive then (now - s0) / 1000 - pd
  else (t.pausedAt.getD now - s0) / 1000 - pd

/-- Elapsed-seconds formula of claim C4 amended to the source's
truthiness test: `pausedAt || now` (a present-but-zero `pausedAt` falls
back to `now`) instead of `pausedAt ?? now`. -/
def amendedElapsedSeconds (t : ActiveTimer) (now : ℚ) : ℚ :=
  let s0 := t.startTime.getD 0
  let pd := t.pausedDuration.getD 0
  if t.isActive then (now - s0) / 1000 - pd
  else (jsOrQ t.pausedAt now - s0) / 1000 - pd

/-! Concrete inputs used to instantiate the theorems below. -/

/-- A UI context with the default 25-minute setting and the default
project list. -/
def ctxT : UiCtx :=
  { settingsTimerDuration := 25
    projects := DEFAULT_PROJECTS
    activeProject := none
    currentNotes := ""
    currentTags := [] }

/-- A running pomodoro timer: started at 1000 ms with a 1500 s target. -/
def timerC1 : ActiveTimer :=
  { mode := Mode.pomodoro
    isActive := true
    startTime := some 1000
    pausedAt := none
    pausedDuration := some 0
    initialDuration := some 1500
    projectId := "default-1"
    projectName := "Deep Work"
    notes := ""
    tags := [] }

/-- The same pomodoro timer, paused at 900 ms. -/
def timerC1paused : ActiveTimer :=
  { timerC1 with isActive := false, pausedAt := some 900 }

/-- Store holding the completed pomodoro timer of `timerC1` (its display
has reached `timeLeft = 0`), before any completion processing. -/
def storeC2 : Store :=
  { sessions := [], timerDoc := some timerC1, nextId := 0 }

/-- A paused stopwatch timer whose `pausedAt` field is present but zero
(the degenerate falsy timestamp). -/
def timerC4 : ActiveTimer :=
  { mode := Mode.stopwatch
    isActive := false
    startTime := some 1000
    pausedAt := some 0
    pausedDuration := some 0
    initialDuration := none
    projectId := "default-1"
    projectName := "Deep Work"
    notes := ""
    tags := [] }

/-- A running pomodoro timer used to instantiate the display formula:
started at 1000 ms with a 1500 s target. -/
def timerW4 : ActiveTimer := timerC1

/-- A paused stopwatch timer (paused at 500 ms, started at 100 ms). -/
def timerW5 : ActiveTimer :=
  { mode := Mode.stopwatch
    isActive := false
    startTime := some 100
    pausedAt := some 500
    pausedDuration := none
    initialDuration := none
    projectId := "default-1"
    projectName := "Deep Work"
    notes := ""
    tags := [] }

/-- Scenario B, step 1: a stopwatch started at `t = 0`. -/
def timerB0 : ActiveTimer :=
  toggleTimerStart Mode.stopwatch ctxT defaultProject0 0

/-- Scenario B, steps 2-3: paused at `t = 10000` ms and resumed at
`t = 15000` ms. -/
def timerB2 : Option ActiveTimer :=
  resumeTimer 15000 (pauseTimer 10000 (some timerB0))

/-- Scenario B store before the finish-early call. -/
def storeB : Store :=
  { sessions := [], timerDoc := timerB2, nextId := 0 }

/-- A stopwatch timer started at 0 ms, used at `now = 500` ms where the
elapsed time floors to 0 seconds. -/
def timerW7 : ActiveTimer :=
  toggleTimerStart Mode.stopwatch ctxT defaultProject0 0

/-- An empty store holding `timerW7`. -/
def storeW7 : Store :=
  { sessions := [], timerDoc := some timerW7, nextId := 0 }

/-- A fetched pomodoro timer whose `startTime` field is absent. -/
def timerC9 : ActiveTimer :=
  { timerC1 with startTime := none }

/-- The asynchronous schedule in which the timer deletion becomes
durable before the session write does: both calls are issued in program
order, then their completions land in the opposite order. -/
def reorderedTrace : List SaveEv :=
  [SaveEv.issue 0, SaveEv.issue 1, SaveEv.complete 1, SaveEv.complete 0]

/-- The fully synchronous schedule: each call completes before the next
one is issued. -/
def sequentialTrace : List SaveEv :=
  [SaveEv.issue 0, SaveEv.complete 0, SaveEv.issue 1, SaveEv.complete 1]

/-! Helper lemmas. -/

/-- With default 0, the falsy fallback `x || 0` agrees with `x ?? 0`. -/
theorem jsOrQ_zero (x : Option ℚ) : jsOrQ x 0 = x.getD 0 := by
  cases x with
  | none => rfl
  | some v => by_cases h : v = 0 <;> simp [jsOrQ, h]

/-- A truthy (nonzero) value passes `x || d` unchanged. -/
theorem jsOrQ_some (v d : ℚ) (h : v ≠ 0) : jsOrQ (some v) d = v := by
  simp [jsOrQ, h]

/-- `pausedAtLe` is monotone in its bound. -/
theorem pausedAtLe_mono (d : Option ActiveTimer) (a b : ℚ) (hab : a ≤ b)
    (hpa : pausedAtLe d a = true) : pausedAtLe d b = true := by
  cases d with
  | none => rfl
  | some t =>
    cases hp : t.pausedAt with
    | none => simp [pausedAtLe, hp]
    | some p =>
      simp only [pausedAtLe, hp, decide_eq_true_eq] at hpa ⊢
      exact le_trans hpa hab

/-- One pause/resume step never decreases `pausedDuration || 0` and keeps
the recorded `pausedAt` (when any) at most the step's clock value,
provided the step runs no earlier than every recorded `pausedAt`. -/
theorem pdVal_step_mono (op : TimerOp) (d : Option ActiveTimer) (c : ℚ)
    (hpa : pausedAtLe d c = true) (hc : c ≤ op.time) :
    pdVal d ≤ pdVal (applyTimerOp op d) ∧
    pausedAtLe (applyTimerOp op d) op.time = true := by
  cases d with
  | none =>
    cases op <;>
      simp [applyTimerOp, pauseTimer, resumeTimer, pdVal, pausedAtLe]
  | some t =>
    cases op with
    | pause n =>
      simp only [TimerOp.time] at hc
      by_cases hA : t.isActive = false
      · refine ⟨?_, ?_⟩
        · simp [applyTimerOp, pauseTimer, hA]
        · simp only [applyTimerOp, pauseTimer, hA, if_pos, TimerOp.time]
          exact pausedAtLe_mono (some t) c n hc hpa
      · refine ⟨?_, ?_⟩
        · simp [applyTimerOp, pauseTimer, hA, pdVal]
        · simp [applyTimerOp, pauseTimer, hA, pausedAtLe, TimerOp.time]
    | resume n =>
      simp only [TimerOp.time] at hc
      cases hp : t.pausedAt with
      | none =>
        refine ⟨?_, ?_⟩
        · simp [applyTimerOp, resumeTimer, jsTruthyNum, hp, pdVal]
        · simp [applyTimerOp, resumeTimer, jsTruthyNum, hp, pausedAtLe]
      | some p =>
        by_cases hp0 : p = 0
        · refine ⟨?_, ?_⟩
          · simp [applyTimerOp, resumeTimer, jsTruthyNum, hp, hp0, pdVal]
          · simp [applyTimerOp, resumeTimer, jsTruthyNum, hp, hp0, pausedAtLe]
        · have hple : p ≤ c := by
            simpa [pausedAtLe, hp] using hpa
          have hdiv : (0:ℚ) ≤ (n - p) / 1000 :=
            div_nonneg (by linarith) (by norm_num)
          refine ⟨?_, ?_⟩
          · simp only [applyTimerOp, resumeTimer, jsTruthyNum, hp,
              decide_eq_true_eq]
            rw [if_pos hp0]
            simp only [pdVal, Option.getD_some, jsOrQ_zero]
            linarith
          · simp only [applyTimerOp, resumeTimer, jsTruthyNum, hp,
              decide_eq_true_eq]
            rw [if_pos hp0]
            simp [pausedAtLe]

/-- `pausedDuration || 0` never decreases along a chronological sequence
of pause/resume operations. -/
theorem pdVal_runOps_mono (ops : List TimerOp) (d : Option ActiveTimer)
    (c : ℚ) (hpa : pausedAtLe d c = true) (hch : chronoFrom c ops = true) :
    pdVal d ≤ pdVal (runTimerOps ops d) := by
  induction ops generalizing d c with
  | nil => simp [runTimerOps]
  | cons op rest ih =>
    rw [chronoFrom, Bool.and_eq_true, decide_eq_true_eq] at hch
    have hstep := pdVal_step_mono op d c hpa hch.1
    exact le_trans hstep.1
      (ih (applyTimerOp op d) op.time hstep.2 hch.2)

/-- The duration computed by `handleFinishEarly` for a pomodoro timer
carrying a (truthy) `initialDuration` never exceeds it, since the
remaining time is clamped at 0 before being subtracted. -/
theorem finishEarlyDuration_le (t : ActiveTimer) (sd now i : ℚ)
    (hm : t.mode = Mode.pomodoro) (hi : t.initialDuration = some i)
    (hi0 : i ≠ 0) :
    ∀ x : ℚ, finishEarlyDuration t sd now = some x → x ≤ i := by
  intro x hx
  cases hst : t.startTime with
  | none => simp [finishEarlyDuration, hst] at hx
  | some s0 =>
    simp only [finishEarlyDuration, hst, hm, hi] at hx
    rw [jsOrQ_some i (sd * 60) hi0, Option.some_inj] at hx
    have h0 : (0:ℚ) ≤
        max 0 (i - ((now - s0) / 1000 - jsOrQ t.pausedDuration 0)) :=
      le_max_left 0 _
    linarith

/-- The fallback duration computed by `saveSession` for a pomodoro timer
carrying a (truthy) `initialDuration` never exceeds it. -/
theorem saveSessionComputedDuration_le (t : ActiveTimer) (sd now i : ℚ)
    (hm : t.mode = Mode.pomodoro) (hi : t.initialDuration = some i)
    (hi0 : i ≠ 0) :
    ∀ x : ℚ, saveSessionComputedDuration t sd now = some x → x ≤ i := by
  intro x hx
  cases hst : t.startTime with
  | none => simp [saveSessionComputedDuration, hst] at hx
  | some s0 =>
    simp only [saveSessionComputedDuration, hst, hm, hi] at hx
    rw [jsOrQ_some i (sd * 60) hi0, Option.some_inj] at hx
    have h0 : (0:ℚ) ≤
        max 0 (i - ((now - s0) / 1000 - jsOrQ t.pausedDuration 0)) :=
      le_max_left 0 _
    linarith

/-! Theorems for the claims. -/

/-- C1 (status: code_bug).  `changeDuration` on a running pomodoro timer
does NOT leave `startTime` unchanged: because `db.startTimer` overwrites
`startTime` with `Date.now()`, the rebuilt timer document carries
`startTime = now` (61000) instead of the original 1000, resetting the
elapsed progress; and on a paused timer (`isActive = false`) the timer
document is not updated at all, so the behaviour is not uniform between
active and paused. -/
theorem changeDuration_overwrites_startTime :
    timerC1.mode = Mode.pomodoro ∧ timerC1.isActive = true ∧
    timerC1.startTime = some 1000 ∧
    (changeDuration 5 25 (some timerC1) 61000).2 =
      some { timerC1 with startTime := some 61000, initialDuration := some 1800 } ∧
    timerC1paused.isActive = false ∧
    (changeDuration 5 25 (some timerC1paused) 61000).2 = some timerC1paused := by
  refine ⟨rfl, rfl, rfl, ?_, rfl, ?_⟩
  · norm_num [changeDuration, startTimer, timerC1, jsTruthyNum, jsOrQ]
  · norm_num [changeDuration, timerC1paused, timerC1]

/-- C2 (status: code_bug).  Running the completion-check effect body
twice with the same observed React snapshot (a completed running
pomodoro, `timeLeft = 0`, whose deletion has not yet propagated back to
the snapshot) appends two distinct Sessions to the store; a single run
appends one.  There is no idempotence guard in the code. -/
theorem completionCheck_twice_creates_two_sessions :
    storeC2.timerDoc = some timerC1 ∧
    timerC1.mode = Mode.pomodoro ∧ timerC1.isActive = true ∧
    (completionCheck (some timerC1) 0 ctxT 1501000 storeC2).sessions.length = 1 ∧
    ((completionCheck (some timerC1) 0 ctxT 1501000
        (completionCheck (some timerC1) 0 ctxT 1501000 storeC2)).sessions.map
      Session.id) = [0, 1] := by
  refine ⟨rfl, rfl, rfl, ?_, ?_⟩ <;>
    norm_num [completionCheck, saveSession, saveSessionNewSession, storeC2,
      timerC1, ctxT, jsOrQ, jsOrQv]

/-- C3 counterexample (status: corrected).  The claim that in every
materialization the Session write *succeeds* before the ActiveTimer is
deleted is false: `saveSession` awaits neither gateway call
(`saveSessionAwaited = [false, false]`), so the schedule in which the
deletion (call 1) completes before the session write (call 0) completes
is a valid asynchronous interleaving. -/
theorem saveSession_delete_may_complete_before_write :
    ¬ (∀ tr : List SaveEv, validAsyncTrace saveSessionAwaited tr →
        tr.indexOf (SaveEv.complete 0) < tr.indexOf (SaveEv.complete 1)) := by
  intro h
  have h2 := h reorderedTrace (by decide)
  exact absurd h2 (by decide)

/-- C3 amended (status: corrected).  What does hold: in every
materialization `saveSession` issues exactly the call sequence
`[addSession newSession, stopTimer]` — the session write is issued
strictly before the timer deletion is issued — in every valid
asynchronous schedule of its gateway calls. -/
theorem saveSession_issues_write_before_delete :
    (∀ (t : ActiveTimer) (actual : Option ℚ) (ctx : UiCtx) (now : ℚ)
        (freshId : Nat),
      ∃ s : Session,
        saveSessionGatewayCalls (some t) actual ctx now freshId =
          [GatewayCall.addSession s, GatewayCall.stopTimer]) ∧
    (∀ tr : List SaveEv, validAsyncTrace saveSessionAwaited tr →
      tr.indexOf (SaveEv.issue 0) < tr.indexOf (SaveEv.issue 1)) := by
  constructor
  · intro t actual ctx now freshId
    exact ⟨_, rfl⟩
  · intro tr h
    unfold validAsyncTrace at h
    exact h.2.2.1 0 (by decide)

/-- Witness for `saveSession_issues_write_before_delete` at a concrete
timer and a concrete valid schedule. -/
theorem saveSession_issues_write_before_delete_witness :
    (∃ s : Session,
      saveSessionGatewayCalls (some timerC1) (some 42) ctxT 2000 7 =
        [GatewayCall.addSession s, GatewayCall.stopTimer]) ∧
    sequentialTrace.indexOf (SaveEv.issue 0) <
      sequentialTrace.indexOf (SaveEv.issue 1) :=
  ⟨saveSession_issues_write_before_delete.1 timerC1 (some 42) ctxT 2000 7,
   saveSession_issues_write_before_delete.2 sequentialTrace (by decide)⟩

/-- C8 (status: confirmed).  Scenario B: stopwatch started at 0 ms,
paused at 10000 ms, resumed at 15000 ms, finished early at 25000 ms:
the materialized Session records 20 seconds (the 5-second pause
excluded) and the ActiveTimer is deleted. -/
theorem scenarioB_stopwatch_twenty_seconds :
    (handleFinishEarly timerB2 ctxT 25000 storeB).sessions.map
        Session.durationSeconds = [some 20] ∧
    (handleFinishEarly timerB2 ctxT 25000 storeB).timerDoc = none := by
  constructor <;>
    norm_num [handleFinishEarly, finishEarlyDuration, saveSession,
      saveSessionNewSession, timerB2, timerB0, toggleTimerStart, startTimer,
      pauseTimer, resumeTimer, ctxT, storeB, jsOrQ, jsTruthyNum,
      defaultProject0, DEFAULT_PROJECTS]

/-- C9 counterexample (status: corrected).  With an ActiveTimer present
whose `startTime` is absent, the display computation does not fall back
to the default display values: it returns early and keeps whatever the
previous display was (here `⟨7, 0⟩`, not the default `⟨1500, 0⟩`). -/
theorem invalid_startTime_not_defaults :
    timerC9.startTime = none ∧
    displayProjector (some timerC9) 25 99000 { timeLeft := 7, stopwatchSeconds := 0 } ≠
      defaultDisplay 25 := by
  constructor
  · rfl
  · norm_num [displayProjector, calculateTime, timerC9, timerC1, jsTruthyNum,
      defaultDisplay, jsOrQv, DisplayTime.mk.injEq]

/-- C9 amended (status: corrected).  What does hold: a fetched
ActiveTimer with a falsy `startTime` is treated as no usable timer
update — the projector (a total function, so it never throws) leaves the
previous display value unchanged; the default display values are
produced exactly when no ActiveTimer exists at all. -/
theorem invalid_startTime_leaves_display_unchanged (t : ActiveTimer)
    (sd now : ℚ) (prev : DisplayTime) (h : jsTruthyNum t.startTime = false) :
    displayProjector (some t) sd now prev = prev ∧
    displayProjector none sd now prev = defaultDisplay sd := by
  constructor
  · simp [displayProjector, calculateTime, h]
  · rfl

/-- Witness for `invalid_startTime_leaves_display_unchanged` at the
concrete timer with an absent `startTime`. -/
theorem invalid_startTime_leaves_display_unchanged_witness :
    jsTruthyNum timerC9.startTime = false ∧
    displayProjector (some timerC9) 25 99000 { timeLeft := 7, stopwatchSeconds := 0 } =
      { timeLeft := 7, stopwatchSeconds := 0 } ∧
    displayProjector none 25 99000 { timeLeft := 7, stopwatchSeconds := 0 } =
      defaultDisplay 25 := by
  refine ⟨rfl, ?_, ?_⟩
  · exact (invalid_startTime_leaves_display_unchanged timerC9 25 99000
      { timeLeft := 7, stopwatchSeconds := 0 } rfl).1
  · exact (invalid_startTime_leaves_display_unchanged timerC9 25 99000
      { timeLeft := 7, stopwatchSeconds := 0 } rfl).2

/-- C4 counterexample (status: corrected).  The claimed elapsed formula
`((pausedAt ?? now) - startTime)/1000 - pausedDuration` for a paused
timer is not what the code computes: the source tests `pausedAt || now`
(JS truthiness), so a present-but-zero `pausedAt` is treated as absent.
On a paused stopwatch with `pausedAt = some 0`, `startTime = 1000` and
`now = 5000`, the claim formula gives -1 second while `calculateTime`
publishes 4 seconds. -/
theorem calculateTime_pausedAt_nullish_counterexample :
    timerC4.isActive = false ∧ timerC4.pausedAt = some 0 ∧
    timerC4.mode = Mode.stopwatch ∧
    calculateTime timerC4 25 5000 { timeLeft := 1500, stopwatchSeconds := 0 } ≠
      { timeLeft := 0
        stopwatchSeconds := (⌊claimElapsedSeconds timerC4 5000⌋ : ℚ) } := by
  refine ⟨rfl, rfl, rfl, ?_⟩
  norm_num [calculateTime, claimElapsedSeconds, timerC4, jsTruthyNum, jsOrQ,
    DisplayTime.mk.injEq]

/-- C4 amended (status: corrected).  For every timer with a truthy
`startTime`, `calculateTime` publishes exactly the claimed quantities
once the elapsed formula is amended to use the source's truthiness
fallback (`pausedAt || now` instead of `pausedAt ?? now`), an absent
`pausedDuration` treated as 0: pomodoro shows
`floor (max 0 (initialDuration - elapsed))` (for a truthy
`initialDuration`) and the stopwatch shows `floor elapsed` with no upper
clamp. -/
theorem calculateTime_amended_formula (t : ActiveTimer) (sd now : ℚ)
    (prev : DisplayTime) (s0 : ℚ) (hst : t.startTime = some s0)
    (hs0 : s0 ≠ 0) :
    (∀ d : ℚ, t.mode = Mode.pomodoro → t.initialDuration = some d → d ≠ 0 →
      calculateTime t sd now prev =
        { timeLeft := (⌊max 0 (d - amendedElapsedSeconds t now)⌋ : ℚ)
          stopwatchSeconds := 0 }) ∧
    (t.mode = Mode.stopwatch →
      calculateTime t sd now prev =
        { timeLeft := 0
          stopwatchSeconds := (⌊amendedElapsedSeconds t now⌋ : ℚ) }) := by
  constructor
  · intro d hm hinit hd0
    simp [calculateTime, amendedElapsedSeconds, hst, hm, hinit, jsTruthyNum,
      hs0, jsOrQ_zero, jsOrQ_some, hd0]
  · intro hm
    simp [calculateTime, amendedElapsedSeconds, hst, hm, jsTruthyNum, hs0,
      jsOrQ_zero]

/-- Witness for `calculateTime_amended_formula`: a running pomodoro
started at 1000 ms with a 1500 s target shows 1496 s left at 5000 ms. -/
theorem calculateTime_amended_formula_witness :
    calculateTime timerW4 25 5000 { timeLeft := 1500, stopwatchSeconds := 0 } =
      { timeLeft := 1496, stopwatchSeconds := 0 } := by
  have h := (calculateTime_amended_formula timerW4 25 5000
      { timeLeft := 1500, stopwatchSeconds := 0 } 1000 rfl
      (by norm_num)).1 1500 rfl rfl (by norm_num)
  rw [h]
  norm_num [amendedElapsedSeconds, timerW4, timerC1, jsOrQ]

/-- C5 (status: confirmed).  For a paused timer (`isActive = false` with
`pausedAt` set — set meaning a truthy, i.e. nonzero, timestamp, which is
what the source's `pausedAt || now` tests and what `pauseTimer` records),
the published display is independent of the instant at which it is read:
two reads at any `now₁`, `now₂` agree, frozen at `pausedAt`. -/
theorem paused_display_frozen (t : ActiveTimer) (sd : ℚ)
    (prev : DisplayTime) (now₁ now₂ p : ℚ) (hA : t.isActive = false)
    (hp : t.pausedAt = some p) (hp0 : p ≠ 0) :
    calculateTime t sd now₁ prev = calculateTime t sd now₂ prev := by
  cases hs : jsTruthyNum t.startTime with
  | false => simp [calculateTime, hs]
  | true => simp [calculateTime, hs, hA, hp, jsOrQ, hp0]

/-- Witness for `paused_display_frozen`: reads at 2000 ms and 999999 ms
of a stopwatch paused at 500 ms agree. -/
theorem paused_display_frozen_witness :
    timerW5.isActive = false ∧ timerW5.pausedAt = some 500 ∧
    ((500:ℚ) ≠ 0) ∧
    calculateTime timerW5 25 2000 { timeLeft := 1500, stopwatchSeconds := 0 } =
      calculateTime timerW5 25 999999 { timeLeft := 1500, stopwatchSeconds := 0 } :=
  ⟨rfl, rfl, by norm_num,
   paused_display_frozen timerW5 25 { timeLeft := 1500, stopwatchSeconds := 0 }
     2000 999999 500 rfl rfl (by norm_num)⟩

/-- C6 (status: confirmed).  `pausedDuration` is touched by no pause:
`pauseTimer` preserves the `pausedDuration` field of any document, and on
an active timer it sets exactly `isActive := false` and
`pausedAt := now` (all other fields unchanged).  `resumeTimer` on a timer
with a (truthy) `pausedAt = p` adds exactly `(now - p) / 1000` seconds to
`pausedDuration || 0` and clears `pausedAt`.  Consequently
`pausedDuration || 0` is monotonically non-decreasing along every
chronological sequence of pause/resume operations whose clock starts no
earlier than any recorded `pausedAt`. -/
theorem pausedDuration_resume_only_and_monotone :
    (∀ (d : Option ActiveTimer) (now : ℚ),
      (pauseTimer now d).map ActiveTimer.pausedDuration =
        d.map ActiveTimer.pausedDuration) ∧
    (∀ (t : ActiveTimer) (now : ℚ), t.isActive = true →
      pauseTimer now (some t) =
        some { t with isActive := false, pausedAt := some now }) ∧
    (∀ (t : ActiveTimer) (now p : ℚ), t.pausedAt = some p → p ≠ 0 →
      resumeTimer now (some t) =
        some { t with
                isActive := true
                pausedAt := none
                pausedDuration :=
                  some (jsOrQ t.pausedDuration 0 + (now - p) / 1000) }) ∧
    (∀ (ops : List TimerOp) (d : Option ActiveTimer) (c : ℚ),
      pausedAtLe d c = true → chronoFrom c ops = true →
      pdVal d ≤ pdVal (runTimerOps ops d)) := by
  refine ⟨?_, ?_, ?_, pdVal_runOps_mono⟩
  · intro d now
    cases d with
    | none => rfl
    | some t =>
      by_cases hA : t.isActive = false <;> simp [pauseTimer, hA]
  · intro t now hA
    simp [pauseTimer, hA]
  · intro t now p hp hp0
    simp only [resumeTimer, jsTruthyNum, hp, decide_eq_true_eq]
    rw [if_pos hp0]
    simp [Option.getD_some]

/-- Witness for `pausedDuration_resume_only_and_monotone`: concrete
pause at 2000 ms, resume of a timer paused at 500 ms (adding 8.5 s), and
a chronological pause/resume pair starting from the running timer. -/
theorem pausedDuration_resume_only_and_monotone_witness :
    (pauseTimer 42 (some timerW5)).map ActiveTimer.pausedDuration =
      (some timerW5).map ActiveTimer.pausedDuration ∧
    pauseTimer 2000 (some timerC1) =
      some { timerC1 with isActive := false, pausedAt := some 2000 } ∧
    resumeTimer 9000 (some timerW5) =
      some { timerW5 with
              isActive := true
              pausedAt := none
              pausedDuration := some (17 / 2) } ∧
    pdVal (some timerC1) ≤
      pdVal (runTimerOps [TimerOp.pause 2000, TimerOp.resume 3000]
        (some timerC1)) := by
  refine ⟨pausedDuration_resume_only_and_monotone.1 (some timerW5) 42,
    pausedDuration_resume_only_and_monotone.2.1 timerC1 2000 rfl, ?_, ?_⟩
  · have h := pausedDuration_resume_only_and_monotone.2.2.1 timerW5 9000 500
      rfl (by norm_num)
    rw [h]
    norm_num [timerW5, jsOrQ]
  · exact pausedDuration_resume_only_and_monotone.2.2.2
      [TimerOp.pause 2000, TimerOp.resume 3000] (some timerC1) 0 rfl
      (by norm_num [chronoFrom, TimerOp.time])

/-- C7 (status: confirmed).  `handleFinishEarly` with a computed used
duration of at most 1 second deletes the ActiveTimer and creates no
Session (the store's session list is unchanged — a silent cancel); with
a duration greater than 1 second it appends exactly one Session carrying
that duration and deletes the ActiveTimer. -/
theorem finishEarly_cancel_or_materialize (t : ActiveTimer) (ctx : UiCtx)
    (now : ℚ) (store : Store) (d : ℚ)
    (hd : finishEarlyDuration t ctx.settingsTimerDuration now = some d) :
    (d ≤ 1 → handleFinishEarly (some t) ctx now store =
      { store with timerDoc := none }) ∧
    (1 < d → ∃ s : Session, s.durationSeconds = some d ∧
      handleFinishEarly (some t) ctx now store =
        { sessions := store.sessions ++ [s], timerDoc := none,
          nextId := store.nextId + 1 }) := by
  constructor
  · intro hle
    simp only [handleFinishEarly, hd]
    rw [if_neg (not_lt.mpr hle)]
  · intro hgt
    refine ⟨saveSessionNewSession t (some d) ctx now store.nextId, rfl, ?_⟩
    simp only [handleFinishEarly, hd, saveSession]
    rw [if_pos hgt]

/-- Witness for `finishEarly_cancel_or_materialize`: a stopwatch
finished 500 ms after start (duration 0 s) is cancelled with no Session;
a pomodoro finished after 60 s of running is materialized with
`durationSeconds = 60`. -/
theorem finishEarly_cancel_or_materialize_witness :
    (finishEarlyDuration timerW7 ctxT.settingsTimerDuration 500 = some 0 ∧
     handleFinishEarly (some timerW7) ctxT 500 storeW7 =
       { storeW7 with timerDoc := none }) ∧
    (finishEarlyDuration timerC1 ctxT.settingsTimerDuration 61000 = some 60 ∧
     ∃ s : Session, s.durationSeconds = some 60 ∧
       handleFinishEarly (some timerC1) ctxT 61000 storeW7 =
         { sessions := storeW7.sessions ++ [s], timerDoc := none,
           nextId := storeW7.nextId + 1 }) := by
  have h0 : finishEarlyDuration timerW7 ctxT.settingsTimerDuration 500 =
      some 0 := by
    norm_num [finishEarlyDuration, timerW7, toggleTimerStart, startTimer,
      ctxT, jsOrQ]
  have h60 : finishEarlyDuration timerC1 ctxT.settingsTimerDuration 61000 =
      some 60 := by
    norm_num [finishEarlyDuration, timerC1, ctxT, jsOrQ]
  exact ⟨⟨h0, (finishEarly_cancel_or_materialize timerW7 ctxT 500 storeW7 0
      h0).1 (by norm_num)⟩,
    ⟨h60, (finishEarly_cancel_or_materialize timerC1 ctxT 61000 storeW7 60
      h60).2 (by norm_num)⟩⟩

/-- C10 (status: confirmed).  Every Session a pomodoro timer (carrying a
truthy `initialDuration = i`) materializes without a caller-supplied
duration — via `handleFinishEarly` or via `saveSession`'s internal
fallback path — has `durationSeconds ≤ i`: the remaining time is clamped
at 0 before the duration is taken as `initialDuration - remaining`. -/
theorem pomodoro_materialized_duration_capped (t : ActiveTimer)
    (ctx : UiCtx) (now : ℚ) (store : Store) (i : ℚ)
    (hm : t.mode = Mode.pomodoro) (hi : t.initialDuration = some i)
    (hi0 : i ≠ 0) :
    (∀ s ∈ (handleFinishEarly (some t) ctx now store).sessions,
      s ∈ store.sessions ∨ ∀ x : ℚ, s.durationSeconds = some x → x ≤ i) ∧
    (∀ s ∈ (saveSession (some t) none ctx now store).sessions,
      s ∈ store.sessions ∨ ∀ x : ℚ, s.durationSeconds = some x → x ≤ i) := by
  constructor
  · intro s hs
    simp only [handleFinishEarly] at hs
    cases hfd : finishEarlyDuration t ctx.settingsTimerDuration now with
    | none =>
      rw [hfd] at hs
      exact Or.inl hs
    | some dd =>
      simp only [hfd] at hs
      by_cases hgt : (1:ℚ) < dd
      · rw [if_pos hgt] at hs
        simp only [saveSession, List.mem_append, List.mem_singleton] at hs
        rcases hs with h | h
        · exact Or.inl h
        · right
          intro x hx
          rw [h] at hx
          simp only [saveSessionNewSession] at hx
          rw [Option.some_inj] at hx
          exact hx ▸ finishEarlyDuration_le t ctx.settingsTimerDuration now i
            hm hi hi0 dd hfd
      · rw [if_neg hgt] at hs
        exact Or.inl hs
  · intro s hs
    simp only [saveSession, List.mem_append, List.mem_singleton] at hs
    rcases hs with h | h
    · exact Or.inl h
    · right
      intro x hx
      rw [h] at hx
      simp only [saveSessionNewSession] at hx
      exact saveSessionComputedDuration_le t ctx.settingsTimerDuration now i
        hm hi hi0 x hx

/-- Witness for `pomodoro_materialized_duration_capped`: the pomodoro of
`timerC1` (`initialDuration = 1500`) finished early at 61000 ms yields a
single new session of 60 s, and 60 ≤ 1500. -/
theorem pomodoro_materialized_duration_capped_witness :
    timerC1.mode = Mode.pomodoro ∧ timerC1.initialDuration = some 1500 ∧
    ((1500:ℚ) ≠ 0) ∧
    (∀ s ∈ (handleFinishEarly (some timerC1) ctxT 61000 storeW7).sessions,
      s ∈ storeW7.sessions ∨
        ∀ x : ℚ, s.durationSeconds = some x → x ≤ 1500) ∧
    (∀ s ∈ (saveSession (some timerC1) none ctxT 61000 storeW7).sessions,
      s ∈ storeW7.sessions ∨
        ∀ x : ℚ, s.durationSeconds = some x → x ≤ 1500) :=
  ⟨rfl, rfl, by norm_num,
   (pomodoro_materialized_duration_capped timerC1 ctxT 61000 storeW7 1500
     rfl rfl (by norm_num)).1,
   (pomodoro_materialized_duration_capped timerC1 ctxT 61000 storeW7 1500
     rfl rfl (by norm_num)).2⟩

end ShadFocus
